import Mathlib

/-!
Verification of the elder-cloud-backend upload server (src/server.mjs).

The development shallowly embeds the request pipeline of the server: the
authentication middleware, the transcription helper with model fallback,
the email composition, and the POST /upload orchestration.  External
effects (temp-file storage, the two transcription provider calls, the SMTP
send, the temp-file unlink) are modelled by an explicit environment record
describing their outcomes, and the handler returns a response value
together with a trace of the side effects it performed.  Wall-clock values
(deliveredAtISO) and log output are outside the embedding.  JSON fields
are modelled as `Option String` (absent or a string); non-string JSON
values are outside the model.
-/

namespace ElderCloud

/-- Whitespace characters recognised by the JavaScript string `trim` method
and by the regular-expression class `\s`: tab, LF, VT, FF, CR, space,
NBSP, BOM, and the Unicode space separators. -/
def isJsWhitespace (c : Char) : Bool :=
  c == ' ' || c == '\t' || c == '\n' || c == '\r' ||
  c == '\x0b' || c == '\x0c' || c == '\u00A0' || c == '\uFEFF' ||
  c == '\u1680' || (0x2000 ≤ c.toNat && c.toNat ≤ 0x200A) ||
  c == '\u2028' || c == '\u2029' || c == '\u202F' || c == '\u205F' ||
  c == '\u3000'

/-- JavaScript `String.prototype.trim`: drop leading and trailing whitespace. -/
def jsTrim (s : String) : String :=
  String.mk (((s.data.dropWhile isJsWhitespace).reverse.dropWhile isJsWhitespace).reverse)

/-- Lower-case characters of the word matched by the regex `/^Bearer\s+/i`. -/
def bearerChars : List Char := ['b', 'e', 'a', 'r', 'e', 'r']

/-- JavaScript `str.replace(/^Bearer\s+/i, "")`: if the string starts with
a case-insensitive `Bearer` followed by at least one whitespace character,
remove that word and the greedy run of whitespace after it; otherwise the
string is unchanged. -/
def stripBearerList (l : List Char) : List Char :=
  if (l.take 6).map Char.toLower = bearerChars then
    match l.drop 6 with
    | c :: rest => if isJsWhitespace c then rest.dropWhile isJsWhitespace else l
    | [] => l
  else l

/-- String form of `stripBearerList`. -/
def stripBearer (s : String) : String := String.mk (stripBearerList s.data)

/-- The request headers the auth middleware inspects.  `none` means the
header is absent from the request; `some v` means it is present with
value `v` (possibly the empty string). -/
structure Headers where
  xSharedKey : Option String
  xApiKey : Option String
  authorization : Option String
deriving DecidableEq

/-- Source lines 45-48:
`(req.headers["x-shared-key"] ?? req.headers["x-api-key"] ??
  (req.headers["authorization"] || "").replace(/^Bearer\s+/i, "")) || ""`.
The nullish-coalescing chain takes the first PRESENT header, even when its
value is the empty string; the final `|| ""` maps an empty-string result
to the empty string and is therefore the identity here. -/
def headerKey (h : Headers) : String :=
  match h.xSharedKey with
  | some v => v
  | none =>
    match h.xApiKey with
    | some v => v
    | none => stripBearer (h.authorization.getD "")

/-- Outcome of the auth middleware: call `next()` (downstream handler runs)
or answer 401 without invoking anything downstream. -/
inductive AuthResult where
  | allowed
  | unauthorized
deriving DecidableEq

/-- Source lines 42-68, the auth middleware.  `apiSharedKey` is the
`API_SHARED_KEY` environment variable (`none` when unset).  The string
conversion `String(API_SHARED_KEY || "")` maps an unset or empty variable
to the empty string, which `Option.getD` models.  The source binds
`jsTrim (headerKey h)` as `k` and `jsTrim (apiSharedKey.getD "")` as
`expected`; both are inlined here. -/
def authGate (apiSharedKey : Option String) (h : Headers) (path : String) : AuthResult :=
  if path = "/healthz" then .allowed
  else if jsTrim (apiSharedKey.getD "") = "" then .allowed
  else if jsTrim (headerKey h) ≠ "" ∧ jsTrim (headerKey h) = jsTrim (apiSharedKey.getD "") then
    .allowed
  else .unauthorized

/-- Responses the upload route can produce, keyed by their JSON body.  The
success body also carries `deliveredAtISO`, a wall-clock value outside the
embedding. -/
inductive Response where
  | ok (transcriptText : String)
  | badRequest (error : String)
  | unauthorized (error : String)
  | serverError (error : String)
deriving DecidableEq

/-- HTTP status code of each response shape. -/
def statusOf : Response → Nat
  | .ok _ => 200
  | .badRequest _ => 400
  | .unauthorized _ => 401
  | .serverError _ => 500

/-- The `ok` boolean of the JSON body of each response shape. -/
def okFlag : Response → Bool
  | .ok _ => true
  | _ => false

/-- The JSON body of POST /upload (source lines 127-135).  `none` models an
absent field. -/
structure UploadBody where
  elderName : Option String
  caregiverEmail : Option String
  ccEmail : Option String
  bccEmail : Option String
  replyDisplayName : Option String
  audioFileName : Option String
  audioB64 : Option String
deriving DecidableEq

/-- JavaScript falsiness of a possibly-absent string: absent or empty. -/
def falsy : Option String → Bool
  | none => true
  | some s => s == ""

/-- The destructuring default `audioFileName = "interview.m4a"` applies
only when the field is absent. -/
def fileNameOf (b : UploadBody) : String := b.audioFileName.getD "interview.m4a"

/-- The argument object passed to `transporter.sendMail` (source lines
168-181). -/
structure EmailMessage where
  emailFrom : String
  toAddr : String
  cc : Option String
  bcc : Option String
  subject : String
  text : String
  attachmentFilename : String
  attachmentContent : String
deriving DecidableEq

/-- JavaScript `x || undefined` for a possibly-absent string: an empty
string is falsy, so it collapses to undefined. -/
def orUndefined : Option String → Option String
  | some s => if s = "" then none else some s
  | none => none

/-- The three candidate header lines of source lines 157-161, as a function
of the three fields inspected: each entry is the labelled field when the
field is truthy, `null` otherwise. -/
def headerItemsOf (elderName replyDisplayName : Option String) (fileName : String) :
    List (Option String) :=
  [ (match elderName with
     | some s => if s ≠ "" then some ("Elder: " ++ s) else none
     | none => none)
  , (match replyDisplayName with
     | some s => if s ≠ "" then some ("Recorded by: " ++ s) else none
     | none => none)
  , (if fileName ≠ "" then some ("File: " ++ fileName) else none) ]

/-- The candidate header lines of a request body. -/
def headerItems (b : UploadBody) : List (Option String) :=
  headerItemsOf b.elderName b.replyDisplayName (fileNameOf b)

/-- JavaScript `Array.prototype.join`. -/
def joinWith (sep : String) : List String → String
  | [] => ""
  | [x] => x
  | x :: y :: xs => x ++ sep ++ joinWith sep (y :: xs)

/-- Source lines 157-163: `[...].filter(Boolean).join("\n")`. -/
def headerLines (b : UploadBody) : String :=
  joinWith "\n" ((headerItems b).filterMap id)

/-- Source line 165:
`(headerLines ? headerLines + "\n\n" : "") + transcriptText`. -/
def emailBodyOf (b : UploadBody) (transcriptText : String) : String :=
  (if headerLines b ≠ "" then headerLines b ++ "\n\n" else "") ++ transcriptText

/-- JavaScript `fileName.replace(/\.[^/.]+$/, "")`: remove a final dot
followed by one or more characters none of which is a dot or a slash;
otherwise the string is unchanged. -/
def stripExtList (l : List Char) : List Char :=
  let rev := l.reverse
  let run := rev.takeWhile (fun c => c ≠ '/' && c ≠ '.')
  match rev.drop run.length with
  | '.' :: rest => if run.isEmpty then l else rest.reverse
  | _ => l

/-- String form of `stripExtList`. -/
def stripExt (s : String) : String := String.mk (stripExtList s.data)

/-- Source line 178:
`(audioFileName.replace(/\.[^/.]+$/, "") || "transcript") + ".txt"`. -/
def attachmentNameOf (fileName : String) : String :=
  (if stripExt fileName = "" then "transcript" else stripExt fileName) ++ ".txt"

/-- The email composition of source lines 156-181, as a pure function of
the configured sender, the request body and the transcript. -/
def composeEmail (emailFrom : String) (b : UploadBody) (transcriptText : String) :
    EmailMessage :=
  { emailFrom := emailFrom
  , toAddr := b.caregiverEmail.getD ""
  , cc := orUndefined b.ccEmail
  , bcc := orUndefined b.bccEmail
  , subject := "Transcript – " ++ fileNameOf b
  , text := emailBodyOf b transcriptText
  , attachmentFilename := attachmentNameOf (fileNameOf b)
  , attachmentContent := emailBodyOf b transcriptText }

instance {α β : Type} [DecidableEq α] [DecidableEq β] : DecidableEq (Except α β) :=
  fun a b =>
    match a, b with
    | .ok x, .ok y => if h : x = y then isTrue (by rw [h]) else isFalse (by simp [h])
    | .ok _, .error _ => isFalse (by simp)
    | .error _, .ok _ => isFalse (by simp)
    | .error x, .error y => if h : x = y then isTrue (by rw [h]) else isFalse (by simp [h])

/-- Outcomes of the external effects one request can perform.  A provider
result `.ok t` carries the text of the response (the source coalesces an
absent `text` field to `""`, so the coalesced value is modelled);
`.error e` is a thrown provider error with message `e`. -/
structure Env where
  storeOk : Bool
  primaryResult : Except String String
  fallbackResult : Except String String
  sendOk : Bool
deriving DecidableEq

/-- Source lines 91-109, the `transcribe` helper: try the
`gpt-4o-transcribe` model; on any error fall back once to `whisper-1`;
an error of the fallback propagates.  Each returned text is trimmed. -/
def transcribe (env : Env) : Except String String :=
  match env.primaryResult with
  | .ok t => .ok (jsTrim t)
  | .error _ =>
    match env.fallbackResult with
    | .ok t => .ok (jsTrim t)
    | .error e => .error e

/-- The provider models `transcribe` calls, in order, for a given
environment: the primary model always, then `whisper-1` exactly when the
primary call threw. -/
def transcribeAttempts (env : Env) : List String :=
  match env.primaryResult with
  | .ok _ => ["gpt-4o-transcribe"]
  | .error _ => ["gpt-4o-transcribe", "whisper-1"]

/-- Side effects one request performed: whether a temp file was written,
which provider models were called, the message handed to
`transporter.sendMail` (if any), and how many times the temp file was
unlinked.  Unlink errors are swallowed by the source (`catch {}`), so only
attempts are counted. -/
structure Trace where
  stored : Bool
  transcribeCalls : List String
  sendMailArg : Option EmailMessage
  released : Nat
deriving DecidableEq

/-- The trace of a request that performed no side effect. -/
def Trace.empty : Trace :=
  { stored := false, transcribeCalls := [], sendMailArg := none, released := 0 }

/-- The POST /upload handler, source lines 125-203.  Control flow:
validation answers 400 before any effect; a storage failure is caught by
the outer catch (500, unexpected error); a transcription failure answers
500 WITHOUT unlinking the temp file (the `finally` of lines 186-190 is
attached only to the `sendMail` try); the send branches unlink exactly
once via that `finally` and answer 200 or 500. -/
def uploadHandler (emailFrom : String) (env : Env) (b : UploadBody) :
    Response × Trace :=
  if falsy b.caregiverEmail || falsy b.audioB64 then
    (.badRequest "audioB64 and caregiverEmail required", Trace.empty)
  else if env.storeOk = false then
    (.serverError "Unexpected server error", Trace.empty)
  else
    match transcribe env with
    | .error _ =>
      (.serverError "Transcription failed",
       { stored := true, transcribeCalls := transcribeAttempts env
       , sendMailArg := none, released := 0 })
    | .ok t =>
      let transcriptText := if t = "" then "(empty transcript)" else t
      let msg := composeEmail emailFrom b transcriptText
      if env.sendOk then
        (.ok transcriptText,
         { stored := true, transcribeCalls := transcribeAttempts env
         , sendMailArg := some msg, released := 1 })
      else
        (.serverError "Email send failed",
         { stored := true, transcribeCalls := transcribeAttempts env
         , sendMailArg := some msg, released := 1 })

/-- A POST /upload request as served end to end: the auth middleware runs
first and, on mismatch, answers 401 without invoking the handler. -/
def serveUpload (apiSharedKey : Option String) (h : Headers) (emailFrom : String)
    (env : Env) (b : UploadBody) : Response × Trace :=
  match authGate apiSharedKey h "/upload" with
  | .allowed => uploadHandler emailFrom env b
  | .unauthorized => (.unauthorized "Unauthorized", Trace.empty)

/-- Spec-side reading of the credential selection: the first NON-EMPTY value
among the shared-key header, the API-key header and the Bearer-stripped
Authorization header.  Stated for comparison with `headerKey`, which takes
the first PRESENT header instead. -/
def specFirstNonEmptyCredential (h : Headers) : String :=
  (([h.xSharedKey.getD "", h.xApiKey.getD "",
     stripBearer (h.authorization.getD "")].find? (fun s => s != "")).getD "")

/-- Spec-side reading of the header block: elder line, recorder line, file
line, each included only when the field is present and non-empty, in that
order.  Stated for comparison with `headerLines`. -/
def specHeaderListOf (elderName replyDisplayName : Option String) (fileName : String) :
    List String :=
  ((match elderName with
    | some s => if s ≠ "" then ["Elder: " ++ s] else []
    | none => []) ++
   (match replyDisplayName with
    | some s => if s ≠ "" then ["Recorded by: " ++ s] else []
    | none => [])) ++
  (if fileName ≠ "" then ["File: " ++ fileName] else [])

/-- Spec-side header block of a request body. -/
def specHeaderList (b : UploadBody) : List String :=
  specHeaderListOf b.elderName b.replyDisplayName (fileNameOf b)

/-- Spec-side reading of the body: the header block joined one per line,
followed by a blank line and the transcript; just the transcript when the
block is empty. -/
def specBody (b : UploadBody) (transcriptText : String) : String :=
  if specHeaderList b = [] then transcriptText
  else joinWith "\n" (specHeaderList b) ++ "\n\n" ++ transcriptText

/-- Spec-side reading of the attachment name: the source filename with its
extension stripped and ".txt" appended, falling back to "transcript.txt"
when stripping yields an empty name. -/
def specAttachmentName (fileName : String) : String :=
  if stripExt fileName = "" then "transcript.txt" else stripExt fileName ++ ".txt"

theorem string_ne_empty_iff_data {s : String} : s ≠ "" ↔ s.data ≠ [] := by
  rw [not_iff_not, String.ext_iff]

theorem append_left_ne_empty (s t : String) (h : s ≠ "") : s ++ t ≠ "" := by
  rw [string_ne_empty_iff_data] at h ⊢
  rw [String.data_append]
  intro he
  exact h (List.append_eq_nil.mp he).1

theorem joinWith_eq_empty_iff (ls : List String) (h : ∀ s ∈ ls, s ≠ "") :
    joinWith "\n" ls = "" ↔ ls = [] := by
  match ls with
  | [] => simp [joinWith]
  | [x] =>
    simp only [joinWith, List.cons_ne_nil, iff_false]
    exact h x (by simp)
  | x :: y :: xs =>
    simp only [joinWith, List.cons_ne_nil, iff_false]
    exact append_left_ne_empty _ _ (append_left_ne_empty _ _ (h x (by simp)))

theorem headerItemsOf_filterMap (eo ro : Option String) (fn : String) :
    (headerItemsOf eo ro fn).filterMap id = specHeaderListOf eo ro fn := by
  rcases eo with _ | e <;> rcases ro with _ | r <;>
    dsimp only [headerItemsOf, specHeaderListOf] <;>
    split_ifs <;> simp_all

theorem specHeaderListOf_mem_ne_empty (eo ro : Option String) (fn : String) :
    ∀ s ∈ specHeaderListOf eo ro fn, s ≠ "" := by
  intro s hs
  dsimp only [specHeaderListOf] at hs
  rw [List.mem_append, List.mem_append] at hs
  rcases hs with (hs | hs) | hs <;>
    rcases eo with _ | e <;> rcases ro with _ | r <;>
    (try dsimp only at hs) <;>
    (try split at hs) <;>
    simp only [List.mem_singleton, List.not_mem_nil] at hs <;>
    (subst hs; exact append_left_ne_empty _ _ (by decide))

theorem emailBody_of_list (ls : List String) (h : ∀ s ∈ ls, s ≠ "") (t : String) :
    (if joinWith "\n" ls ≠ "" then joinWith "\n" ls ++ "\n\n" else "") ++ t =
      if ls = [] then t else joinWith "\n" ls ++ "\n\n" ++ t := by
  cases ls with
  | nil => simp [joinWith]
  | cons x xs =>
    have hne : joinWith "\n" (x :: xs) ≠ "" := by
      rw [ne_eq, joinWith_eq_empty_iff _ h]
      simp
    rw [if_pos hne, if_neg (by simp)]

/-- A concrete environment in which both provider models throw. -/
def bothFailEnv : Env :=
  { storeOk := true, primaryResult := .error "primary model unavailable"
  , fallbackResult := .error "fallback model unavailable", sendOk := true }

/-- A concrete environment in which the provider answers on the first try
and the transport accepts the send. -/
def happyEnv : Env :=
  { storeOk := true, primaryResult := .ok "hello world"
  , fallbackResult := .ok "unused", sendOk := true }

/-- A concrete environment in which transcription succeeds and the mail
transport rejects the send. -/
def mailFailEnv : Env :=
  { storeOk := true, primaryResult := .ok "hello world"
  , fallbackResult := .ok "unused", sendOk := false }

/-- A concrete environment in which the provider answers whitespace only,
which trims to the empty transcript. -/
def emptyTranscriptEnv : Env :=
  { storeOk := true, primaryResult := .ok "   "
  , fallbackResult := .ok "unused", sendOk := true }

/-- A concrete valid upload body. -/
def sampleBody : UploadBody :=
  { elderName := some "Rosa", caregiverEmail := some "a@b.com", ccEmail := none
  , bccEmail := none, replyDisplayName := some "Ana"
  , audioFileName := some "interview_20250101.m4a", audioB64 := some "QUJD" }

/-- A concrete upload body with the caregiver email missing. -/
def missingEmailBody : UploadBody :=
  { elderName := some "Rosa", caregiverEmail := none, ccEmail := none
  , bccEmail := none, replyDisplayName := none
  , audioFileName := some "interview.m4a", audioB64 := some "QUJD" }

/-- A concrete upload body with no optional metadata. -/
def bareBody : UploadBody :=
  { elderName := none, caregiverEmail := some "a@b.com", ccEmail := none
  , bccEmail := none, replyDisplayName := none
  , audioFileName := none, audioB64 := some "QUJD" }

/-- C1: the claim says the temporary audio file is released exactly once on
every exit path after a successful store — success, transcription failure
and email failure alike.  The code violates it on the transcription-failure
exit: the `finally` that unlinks the temp file is attached only to the
`sendMail` try, so the early `return` of the transcription catch skips it.
At a valid request whose two provider calls both throw, the temp file is
stored and the response is the 500 transcription failure, yet the file is
never released. -/
theorem upload_transcription_failure_skips_release :
    (uploadHandler "F" bothFailEnv bareBody).1 = .serverError "Transcription failed"
    ∧ (uploadHandler "F" bothFailEnv bareBody).2.stored = true
    ∧ (uploadHandler "F" bothFailEnv bareBody).2.released = 0 := by decide

/-- C2: when transcription succeeds and the mail transport rejects the
send, the response is status 500 with error "Email send failed", the temp
file is released once, and the response is never the success shape that
carries the transcript. -/
theorem upload_email_failure_outcome (f t : String) (env : Env) (b : UploadBody)
    (hc : falsy b.caregiverEmail = false) (ha : falsy b.audioB64 = false)
    (hst : env.storeOk = true) (ht : transcribe env = .ok t)
    (hm : env.sendOk = false) :
    (uploadHandler f env b).1 = .serverError "Email send failed"
    ∧ statusOf (uploadHandler f env b).1 = 500
    ∧ (uploadHandler f env b).2.released = 1
    ∧ ∀ s, (uploadHandler f env b).1 ≠ .ok s := by
  have hres : (uploadHandler f env b).1 = .serverError "Email send failed" := by
    simp [uploadHandler, hc, ha, hst, ht, hm]
  refine ⟨hres, by rw [hres]; rfl, ?_, fun s => by rw [hres]; exact fun hco => by cases hco⟩
  simp [uploadHandler, hc, ha, hst, ht, hm]

/-- C2 witness: concrete transcription success with a rejecting transport. -/
theorem upload_email_failure_outcome_witness :
    (falsy sampleBody.caregiverEmail = false ∧ falsy sampleBody.audioB64 = false
     ∧ mailFailEnv.storeOk = true ∧ transcribe mailFailEnv = .ok "hello world"
     ∧ mailFailEnv.sendOk = false)
    ∧ ((uploadHandler "F" mailFailEnv sampleBody).1 = .serverError "Email send failed"
       ∧ statusOf (uploadHandler "F" mailFailEnv sampleBody).1 = 500
       ∧ (uploadHandler "F" mailFailEnv sampleBody).2.released = 1
       ∧ ∀ s, (uploadHandler "F" mailFailEnv sampleBody).1 ≠ .ok s) :=
  ⟨by decide,
   upload_email_failure_outcome "F" "hello world" mailFailEnv sampleBody
     (by decide) (by decide) (by decide) (by decide) (by decide)⟩

/-- C5: a request missing the caregiver email or the audio payload gets the
400 validation response with an ok-false error body, and no side effect is
performed: no temp file is stored, no provider model is called, no message
is handed to the transport, and nothing is unlinked. -/
theorem upload_validation_no_side_effects (f : String) (env : Env) (b : UploadBody)
    (hmiss : falsy b.caregiverEmail = true ∨ falsy b.audioB64 = true) :
    (uploadHandler f env b).1 = .badRequest "audioB64 and caregiverEmail required"
    ∧ statusOf (uploadHandler f env b).1 = 400
    ∧ okFlag (uploadHandler f env b).1 = false
    ∧ (uploadHandler f env b).2 = Trace.empty := by
  have hcond : (falsy b.caregiverEmail || falsy b.audioB64) = true := by
    rcases hmiss with hm | hm <;> simp [hm]
  have hres : uploadHandler f env b =
      (.badRequest "audioB64 and caregiverEmail required", Trace.empty) := by
    simp [uploadHandler, hcond]
  rw [hres]
  exact ⟨rfl, rfl, rfl, rfl⟩

/-- C5 witness: a concrete request with no caregiver email. -/
theorem upload_validation_no_side_effects_witness :
    (falsy missingEmailBody.caregiverEmail = true ∨ falsy missingEmailBody.audioB64 = true)
    ∧ ((uploadHandler "F" happyEnv missingEmailBody).1 =
        .badRequest "audioB64 and caregiverEmail required"
       ∧ statusOf (uploadHandler "F" happyEnv missingEmailBody).1 = 400
       ∧ okFlag (uploadHandler "F" happyEnv missingEmailBody).1 = false
       ∧ (uploadHandler "F" happyEnv missingEmailBody).2 = Trace.empty) :=
  ⟨by decide,
   upload_validation_no_side_effects "F" happyEnv missingEmailBody (by decide)⟩

/-- C6: the transcription helper calls the primary model first and, on a
primary error, calls the fallback model exactly once; when both calls
throw, the error surfaces and the upload response is the 500 transcription
failure. -/
theorem transcription_fallback_exhaustion (f e₁ e₂ : String) (env : Env) (b : UploadBody)
    (hp : env.primaryResult = .error e₁) (hf : env.fallbackResult = .error e₂)
    (hc : falsy b.caregiverEmail = false) (ha : falsy b.audioB64 = false)
    (hst : env.storeOk = true) :
    transcribe env = .error e₂
    ∧ transcribeAttempts env = ["gpt-4o-transcribe", "whisper-1"]
    ∧ (uploadHandler f env b).1 = .serverError "Transcription failed"
    ∧ statusOf (uploadHandler f env b).1 = 500
    ∧ (uploadHandler f env b).2.transcribeCalls = ["gpt-4o-transcribe", "whisper-1"] := by
  have ht : transcribe env = .error e₂ := by
    unfold transcribe
    rw [hp, hf]
  have hat : transcribeAttempts env = ["gpt-4o-transcribe", "whisper-1"] := by
    unfold transcribeAttempts
    rw [hp]
  have hres : uploadHandler f env b =
      (.serverError "Transcription failed",
       { stored := true, transcribeCalls := transcribeAttempts env
       , sendMailArg := none, released := 0 }) := by
    simp [uploadHandler, hc, ha, hst, ht]
  rw [hres]
  exact ⟨ht, hat, rfl, rfl, hat⟩

/-- C6 witness: a concrete environment where both provider calls throw. -/
theorem transcription_fallback_exhaustion_witness :
    (bothFailEnv.primaryResult = .error "primary model unavailable"
     ∧ bothFailEnv.fallbackResult = .error "fallback model unavailable"
     ∧ falsy sampleBody.caregiverEmail = false ∧ falsy sampleBody.audioB64 = false
     ∧ bothFailEnv.storeOk = true)
    ∧ (transcribe bothFailEnv = .error "fallback model unavailable"
       ∧ transcribeAttempts bothFailEnv = ["gpt-4o-transcribe", "whisper-1"]
       ∧ (uploadHandler "F" bothFailEnv sampleBody).1 = .serverError "Transcription failed"
       ∧ statusOf (uploadHandler "F" bothFailEnv sampleBody).1 = 500
       ∧ (uploadHandler "F" bothFailEnv sampleBody).2.transcribeCalls =
           ["gpt-4o-transcribe", "whisper-1"]) :=
  ⟨by decide,
   transcription_fallback_exhaustion "F" "primary model unavailable"
     "fallback model unavailable" bothFailEnv sampleBody
     (by decide) (by decide) (by decide) (by decide) (by decide)⟩

/-- C7: when the provider returns a transcript that trims to the empty
string, the handler normalises it to the placeholder "(empty transcript)",
hands the composed message with that placeholder to the transport, and the
pipeline completes as a success carrying the placeholder. -/
theorem upload_empty_transcript_placeholder (f : String) (env : Env) (b : UploadBody)
    (hc : falsy b.caregiverEmail = false) (ha : falsy b.audioB64 = false)
    (hst : env.storeOk = true) (ht : transcribe env = .ok "")
    (hm : env.sendOk = true) :
    (uploadHandler f env b).1 = .ok "(empty transcript)"
    ∧ statusOf (uploadHandler f env b).1 = 200
    ∧ okFlag (uploadHandler f env b).1 = true
    ∧ (uploadHandler f env b).2.sendMailArg = some (composeEmail f b "(empty transcript)")
    ∧ (uploadHandler f env b).2.released = 1 := by
  have hres : uploadHandler f env b =
      (.ok "(empty transcript)",
       { stored := true, transcribeCalls := transcribeAttempts env
       , sendMailArg := some (composeEmail f b "(empty transcript)"), released := 1 }) := by
    simp [uploadHandler, hc, ha, hst, ht, hm]
  rw [hres]
  exact ⟨rfl, rfl, rfl, rfl, rfl⟩

/-- C7 witness: a provider answer of whitespace only, which trims to the
empty transcript. -/
theorem upload_empty_transcript_placeholder_witness :
    (falsy sampleBody.caregiverEmail = false ∧ falsy sampleBody.audioB64 = false
     ∧ emptyTranscriptEnv.storeOk = true ∧ transcribe emptyTranscriptEnv = .ok ""
     ∧ emptyTranscriptEnv.sendOk = true)
    ∧ ((uploadHandler "F" emptyTranscriptEnv sampleBody).1 = .ok "(empty transcript)"
       ∧ statusOf (uploadHandler "F" emptyTranscriptEnv sampleBody).1 = 200
       ∧ okFlag (uploadHandler "F" emptyTranscriptEnv sampleBody).1 = true
       ∧ (uploadHandler "F" emptyTranscriptEnv sampleBody).2.sendMailArg =
           some (composeEmail "F" sampleBody "(empty transcript)")
       ∧ (uploadHandler "F" emptyTranscriptEnv sampleBody).2.released = 1) :=
  ⟨by decide,
   upload_empty_transcript_placeholder "F" emptyTranscriptEnv sampleBody
     (by decide) (by decide) (by decide) (by decide) (by decide)⟩

/-- C4: when no shared secret is configured on the server, the auth
middleware allows every request to every path (fail-open).  The warning it
logs in that branch is log output, outside the embedding. -/
theorem auth_fail_open_when_unconfigured (h : Headers) (path : String) :
    authGate none h path = .allowed := by
  unfold authGate
  rw [if_pos (show jsTrim ((none : Option String).getD "") = "" by decide)]
  simp

/-- C10: a configured secret consisting only of whitespace is trimmed to
the empty string before the emptiness check, so the middleware behaves
exactly as if no secret were configured: every request to every path is
allowed, regardless of any credential the client supplies. -/
theorem auth_whitespace_secret_fail_open (secret : String) (h : Headers) (path : String)
    (hws : ∀ c ∈ secret.data, isJsWhitespace c = true) :
    authGate (some secret) h path = .allowed := by
  have hts : jsTrim ((some secret).getD "") = "" := by
    rw [Option.getD_some, String.ext_iff]
    show (((secret.data.dropWhile isJsWhitespace).reverse.dropWhile
        isJsWhitespace).reverse) = []
    rw [List.dropWhile_eq_nil_iff.mpr hws]
    rfl
  unfold authGate
  rw [if_pos hts]
  simp

/-- C10 witness: a two-space secret with an arbitrary credential supplied. -/
theorem auth_whitespace_secret_fail_open_witness :
    (∀ c ∈ ("  " : String).data, isJsWhitespace c = true)
    ∧ authGate (some "  ") ⟨none, some "whatever", none⟩ "/upload" = .allowed :=
  ⟨by decide,
   auth_whitespace_secret_fail_open "  " ⟨none, some "whatever", none⟩ "/upload" (by decide)⟩

/-- C3 fails as stated: with the shared-key header PRESENT but empty and a
matching API-key header, the first non-empty credential equals the
configured secret, so the claim says the request is allowed, yet the
middleware answers 401 — the nullish-coalescing chain takes the first
present header, not the first non-empty one. -/
theorem auth_first_nonempty_refuted :
    ¬ (authGate (some "s3cret") ⟨some "", some "s3cret", none⟩ "/upload" = .allowed ↔
       jsTrim (specFirstNonEmptyCredential ⟨some "", some "s3cret", none⟩) =
         jsTrim "s3cret") := by decide

/-- C3 amended: the credential is read from the first PRESENT header among
the shared-key header, the API-key header and the Authorization header
with any Bearer prefix stripped — presence wins even when the value is
empty.  With a configured non-blank secret, the request is allowed exactly
when the trimmed credential equals the trimmed secret, and on mismatch the
response is the 401 authorization failure with no downstream stage run. -/
theorem auth_first_present_header (key : String) (h : Headers) (f : String)
    (env : Env) (b : UploadBody) (hkey : jsTrim key ≠ "") :
    (∀ v o₁ o₂, headerKey ⟨some v, o₁, o₂⟩ = v)
    ∧ (∀ v o₂, headerKey ⟨none, some v, o₂⟩ = v)
    ∧ (∀ v, headerKey ⟨none, none, some v⟩ = stripBearer v)
    ∧ (authGate (some key) h "/upload" = .allowed ↔ jsTrim (headerKey h) = jsTrim key)
    ∧ (jsTrim (headerKey h) ≠ jsTrim key →
        serveUpload (some key) h f env b = (.unauthorized "Unauthorized", Trace.empty)
        ∧ statusOf (serveUpload (some key) h f env b).1 = 401) := by
  have hkey' : jsTrim ((some key).getD "") ≠ "" := by
    rw [Option.getD_some]
    exact hkey
  refine ⟨fun v o₁ o₂ => rfl, fun v o₂ => rfl, fun v => rfl, ?_, ?_⟩
  · unfold authGate
    rw [if_neg (by decide : ¬("/upload" = "/healthz")), if_neg hkey']
    constructor
    · intro hal
      by_cases hk : jsTrim (headerKey h) ≠ "" ∧
          jsTrim (headerKey h) = jsTrim ((some key).getD "")
      · rw [Option.getD_some] at hk
        exact hk.2
      · rw [if_neg hk] at hal
        cases hal
    · intro heq
      have hne : jsTrim (headerKey h) ≠ "" := by
        rw [heq]
        exact hkey
      rw [if_pos ⟨hne, by rw [Option.getD_some]; exact heq⟩]
  · intro hmis
    have hgate : authGate (some key) h "/upload" = .unauthorized := by
      unfold authGate
      rw [if_neg (by decide : ¬("/upload" = "/healthz")), if_neg hkey',
        if_neg (fun hk => hmis (by rw [← Option.getD_some (a := key) (b := "")]; exact hk.2))]
    unfold serveUpload
    rw [hgate]
    exact ⟨rfl, rfl⟩

/-- C3 amended witness: a matching API-key header with no shared-key
header, against the secret of the spec scenario. -/
theorem auth_first_present_header_witness :
    jsTrim "s3cret" ≠ "" ∧
    ((∀ v o₁ o₂, headerKey ⟨some v, o₁, o₂⟩ = v)
     ∧ (∀ v o₂, headerKey ⟨none, some v, o₂⟩ = v)
     ∧ (∀ v, headerKey ⟨none, none, some v⟩ = stripBearer v)
     ∧ (authGate (some "s3cret") ⟨none, some "s3cret", none⟩ "/upload" = .allowed ↔
         jsTrim (headerKey ⟨none, some "s3cret", none⟩) = jsTrim "s3cret")
     ∧ (jsTrim (headerKey ⟨none, some "s3cret", none⟩) ≠ jsTrim "s3cret" →
         serveUpload (some "s3cret") ⟨none, some "s3cret", none⟩ "F" happyEnv sampleBody =
           (.unauthorized "Unauthorized", Trace.empty)
         ∧ statusOf (serveUpload (some "s3cret") ⟨none, some "s3cret", none⟩ "F"
             happyEnv sampleBody).1 = 401)) :=
  ⟨by decide,
   auth_first_present_header "s3cret" ⟨none, some "s3cret", none⟩ "F" happyEnv sampleBody
     (by decide)⟩

/-- C8: the composed message has the subject derived from the source
filename; a body equal to the header block — elder line, recorder line,
file line, each included only when the field is present and non-empty, one
per line, in that order — followed by a blank line and the transcript
(just the transcript when the block is empty); an attachment named by
stripping the extension of the source filename and appending ".txt", with
"transcript.txt" as the fallback when stripping yields an empty name; and
attachment content identical to the body. -/
theorem compose_email_structure (f : String) (b : UploadBody) (t : String) :
    (composeEmail f b t).subject = "Transcript – " ++ fileNameOf b
    ∧ (composeEmail f b t).text = specBody b t
    ∧ (composeEmail f b t).attachmentFilename = specAttachmentName (fileNameOf b)
    ∧ (composeEmail f b t).attachmentContent = (composeEmail f b t).text := by
  refine ⟨rfl, ?_, ?_, rfl⟩
  · show emailBodyOf b t = specBody b t
    unfold emailBodyOf specBody headerLines headerItems specHeaderList
    rw [headerItemsOf_filterMap]
    exact emailBody_of_list _ (specHeaderListOf_mem_ne_empty _ _ _) t
  · show attachmentNameOf (fileNameOf b) = specAttachmentName (fileNameOf b)
    unfold attachmentNameOf specAttachmentName
    by_cases hs : stripExt (fileNameOf b) = ""
    · rw [if_pos hs, if_pos hs]
      decide
    · rw [if_neg hs, if_neg hs]

/-- C9: composition is a pure function of the configured sender, the
request body and the transcript: two calls on identical inputs yield the
identical message. -/
theorem compose_email_deterministic (f₁ f₂ : String) (b₁ b₂ : UploadBody) (t₁ t₂ : String)
    (hf : f₁ = f₂) (hb : b₁ = b₂) (ht : t₁ = t₂) :
    composeEmail f₁ b₁ t₁ = composeEmail f₂ b₂ t₂ := by
  rw [hf, hb, ht]

/-- C9 witness: two calls of the composer on the same concrete input. -/
theorem compose_email_deterministic_witness :
    ("F" : String) = "F" ∧ sampleBody = sampleBody ∧ ("hello world" : String) = "hello world"
    ∧ composeEmail "F" sampleBody "hello world" = composeEmail "F" sampleBody "hello world" :=
  ⟨rfl, rfl, rfl,
   compose_email_deterministic "F" "F" sampleBody sampleBody "hello world" "hello world"
     rfl rfl rfl⟩

end ElderCloud
